import Mathlib

/-!
Verification development for the Stardom music-career simulator.

The TypeScript sources are shallowly embedded below.  JavaScript numbers are
modelled as exact rationals (`ℚ`); integer-valued quantities (fans, fame,
streams, followers, skills) are modelled as `ℤ`.  `Math.floor` becomes
`Int.floor` on `ℚ`.  Every `Math.random()` draw and every asynchronous oracle
result (trending topics, sponsored offers, fan-gain estimates, generated
strings) is an explicit input parameter, so each handler is a pure function
of the previous state and those inputs.  Presentation-only data (timestamps,
thumbnails, generated comments, UI flags) is omitted from the state.
-/

set_option maxRecDepth 4000

namespace Stardom

inductive SocialPlatform where
  | instagram
  | tiktok
  | youtube
  | spotify
  | appleMusic
deriving DecidableEq, Repr

/-- Source `Record<SocialPlatform, number>` from `types.ts`: one follower count per
platform of the fixed platform set. -/
structure Followers where
  instagram : ℤ
  tiktok : ℤ
  youtube : ℤ
  spotify : ℤ
  appleMusic : ℤ
deriving DecidableEq, Repr

/-- The `skills` record of the player. -/
structure Skills where
  songwriting : ℤ
  vocals : ℤ
  production : ℤ
  charisma : ℤ
deriving DecidableEq, Repr

/-- Source `GameState['player']` from `types.ts` (identity strings kept, genre
omitted as presentation data). -/
structure Player where
  stageName : String
  fans : ℤ
  fame : ℤ
  money : ℚ
  followers : Followers
  skills : Skills
  labelId : String
deriving DecidableEq, Repr

/-- Source `Song` from `types.ts`.  `releaseDate` is the in-game month index
(months since January 2025); lyrics/chart position are presentation data. -/
structure Song where
  id : ℕ
  title : String
  quality : ℤ
  releaseDate : ℕ
  streams : ℤ
  revenue : ℚ
  isMusicVideo : Bool
  isMastered : Bool
deriving DecidableEq, Repr

/-- Source `SocialPost` from `types.ts` (timestamp, comments and thumbnail omitted). -/
structure SocialPost where
  platform : SocialPlatform
  content : String
  postType : String
  likes : ℤ
  impactFans : ℤ
  impactFame : ℤ
deriving DecidableEq, Repr

/-- Source `SponsoredOffer` from `types.ts`. -/
structure SponsoredOffer where
  id : String
  brand : String
  payout : ℚ
  requirement : String
  charismaPenalty : ℤ
deriving DecidableEq, Repr

/-- Source `Award` from `types.ts`. -/
structure Award where
  id : String
  year : ℤ
  category : String
  reason : String
deriving DecidableEq, Repr

/-- Source `Label` from `types.ts`. -/
structure Label where
  id : String
  name : String
  prestige : ℤ
  fameRequirement : ℤ
  signingBonus : ℚ
  revenueSplit : ℚ
deriving DecidableEq, Repr

/-- One `history` sample: `{ month, fans }`. -/
structure HistoryEntry where
  month : ℕ
  fans : ℤ
deriving DecidableEq, Repr

/-- Source `GameState` from `types.ts`.  `currentDate` is modelled by
`currentMonth`, the number of whole months elapsed since January 2025
(the code only ever reads `getMonth`/`getFullYear` and does
`setMonth (getMonth () + 1)`). -/
structure GameState where
  player : Player
  currentMonth : ℕ
  currentWeek : ℕ
  songs : List Song
  unreleasedSongs : List Song
  awards : List Award
  news : List String
  socialPosts : List SocialPost
  trendingTopics : List String
  activeOffers : List SponsoredOffer
  history : List HistoryEntry
deriving DecidableEq, Repr

/-- Source `getStreamRate` from `App.tsx`: base rate `750/1500`; for
`fans ≥ 1,000,000` add `(fans - 1000000) * 1e-7`. -/
def getStreamRate (fans : ℤ) : ℚ :=
  let baseRate : ℚ := 750 / 1500
  if fans < 1000000 then baseRate
  else baseRate + ((fans : ℚ) - 1000000) * (1 / 10000000)

/-- Weekly stream update of one released song inside `advanceTime`;
`r` is that song's `Math.random()` draw. -/
def weeklyUpdatedSong (p : Player) (rate : ℚ) (r : ℚ) (song : Song) : Song :=
  let qualityFactor : ℚ := ((song.quality : ℚ) / 100) ^ 2
  let audienceFactor : ℚ := (p.fans : ℚ) * (5 / 100) + (p.fame : ℚ) * (1 / 100)
  let weeklyGain : ℤ := ⌊audienceFactor * qualityFactor * (8 / 10 + r * (4 / 10))⌋
  let finalWeeklyGain : ℤ := max 1 weeklyGain
  let newTotalStreams : ℤ := song.streams + finalWeeklyGain
  { song with streams := newTotalStreams, revenue := (newTotalStreams : ℚ) * rate }

/-- The clamped weekly stream gain of one song (the `max 1` of the floored
product), in isolation. -/
def songGain (p : Player) (rate : ℚ) (r : ℚ) (song : Song) : ℤ :=
  (weeklyUpdatedSong p rate r song).streams - song.streams

/-- Source `prev.songs.map (song => ...)` of `advanceTime`, with the per-song
random draws supplied by `jitter` in map order. -/
def weeklyUpdateSongs (p : Player) (rate : ℚ) (jitter : ℕ → ℚ) :
    ℕ → List Song → List Song
  | _, [] => []
  | i, s :: rest =>
      weeklyUpdatedSong p rate (jitter i) s ::
        weeklyUpdateSongs p rate jitter (i + 1) rest

/-- The sum of the per-song weekly gains applied by one `advanceTime` call. -/
def sumGains (p : Player) (rate : ℚ) (jitter : ℕ → ℚ) :
    ℕ → List Song → ℤ
  | _, [] => 0
  | i, s :: rest =>
      songGain p rate (jitter i) s + sumGains p rate jitter (i + 1) rest

/-- The settlement's `monthlyActivity` reduce from `advanceTime`:
`updatedSongs.reduce ((acc, song) => acc + (song.streams - (oldSong?.streams or 0)), 0)`
where `oldSong` is the first entry of `old` with the same id. -/
def monthlyActivity (updated old : List Song) : ℤ :=
  updated.foldl
    (fun acc song =>
      acc + (song.streams -
        ((old.find? (fun s => s.id = song.id)).elim 0 Song.streams)))
    0

/-- Quality of the best song: the head of `[...songs].sort (desc by quality)`
has the maximal quality of the list. -/
def bestQuality : List Song → ℤ
  | [] => 0
  | s :: rest => rest.foldl (fun a t => max a t.quality) s.quality

/-- Source `runAwardsSeason` from `App.tsx` (the variant with both categories).
Random id suffixes are presentation data and replaced by fixed strings. -/
def runAwardsSeason (state : GameState) : List Award :=
  let year : ℤ := 2025 + (state.currentMonth / 12 : ℕ)
  let songAward : List Award :=
    if state.player.fans > 1000000 ∧ state.songs.length ≥ 3 ∧
        bestQuality state.songs > 85 then
      [{ id := "aoy", year := year, category := "Album of the Year",
         reason := "Masterpiece of production and songwriting." }]
    else []
  let artistAward : List Award :=
    if state.player.fame > 5000000 then
      [{ id := "boty", year := year, category := "Best Artist",
         reason := "Global impact and cultural domination." }]
    else []
  songAward ++ artistAward

/-- Source `(label?.revenueSplit or 100) / 100` from the settlement: a missing
label, and a label whose split is the falsy `0`, both yield `100`. -/
def labelShare (labels : List Label) (labelId : String) : ℚ :=
  let label := labels.find? (fun l => l.id = labelId)
  (label.elim 100 (fun l =>
    if l.revenueSplit = 0 then 100 else l.revenueSplit)) / 100

/-- The random draws and oracle results consumed by one `advanceTime` call:
per-song stream jitters, the refreshed trending list, the sponsorship
probability roll and the offer the oracle would return. -/
structure AdvanceInputs where
  jitter : ℕ → ℚ
  newTrending : List String
  offerRoll : ℚ
  offer : SponsoredOffer

/-- Source `advanceTime` from `App.tsx`.  The random career event only opens a
modal (`setActiveEvent`) and never touches the committed `GameState`, so its
rolls are not part of the transition. -/
def advanceTime (labels : List Label) (inp : AdvanceInputs) (prev : GameState) :
    GameState :=
  let nextWeek := prev.currentWeek + 1
  let currentRate := getStreamRate prev.player.fans
  let updatedSongs := weeklyUpdateSongs prev.player currentRate inp.jitter 0 prev.songs
  if nextWeek > 4 then
    let oldMonth := prev.currentMonth % 12
    let wonAwards := if oldMonth = 11 then runAwardsSeason prev else []
    let newAwards :=
      if wonAwards.length > 0 then prev.awards ++ wonAwards else prev.awards
    let fame1 :=
      if wonAwards.length > 0 then
        prev.player.fame + (wonAwards.length : ℤ) * 500000
      else prev.player.fame
    let money1 :=
      if wonAwards.length > 0 then
        prev.player.money + (wonAwards.length : ℚ) * 100000
      else prev.player.money
    let newNews :=
      if wonAwards.length > 0 then
        (wonAwards.map (fun a => "WINNER: " ++ a.category)).reverse ++ prev.news
      else prev.news
    let newOffers :=
      if inp.offerRoll < 6 / 10 then (inp.offer :: prev.activeOffers).take 3
      else prev.activeOffers
    let activity := monthlyActivity updatedSongs prev.songs
    let share := labelShare labels prev.player.labelId
    let money2 := money1 + (activity : ℚ) * currentRate * share
    let fans2 := prev.player.fans + ⌊(prev.player.fans : ℚ) * (5 / 100)⌋
    let newFollowers : Followers :=
      { instagram := ⌊(prev.player.followers.instagram : ℚ) * (105 / 100)⌋
        tiktok := ⌊(prev.player.followers.tiktok : ℚ) * (108 / 100)⌋
        youtube := ⌊(prev.player.followers.youtube : ℚ) * (103 / 100)⌋
        spotify := ⌊(prev.player.followers.spotify : ℚ) * (104 / 100)⌋
        appleMusic := ⌊(prev.player.followers.appleMusic : ℚ) * (102 / 100)⌋ }
    let newHistory := prev.history ++ [{ month := prev.history.length, fans := fans2 }]
    { prev with
      currentMonth := prev.currentMonth + 1
      currentWeek := 1
      player :=
        { prev.player with
          fame := fame1, money := money2, fans := fans2, followers := newFollowers }
      songs := updatedSongs
      awards := newAwards
      news := newNews.take 15
      history := newHistory
      trendingTopics := inp.newTrending
      activeOffers := newOffers }
  else
    let fans1 := prev.player.fans + ⌊(prev.player.fans : ℚ) * (1 / 100)⌋
    let newFollowers : Followers :=
      { prev.player.followers with
        instagram := ⌊(prev.player.followers.instagram : ℚ) * (101 / 100)⌋
        tiktok := ⌊(prev.player.followers.tiktok : ℚ) * (102 / 100)⌋ }
    { prev with
      currentWeek := nextWeek
      player := { prev.player with fans := fans1, followers := newFollowers }
      songs := updatedSongs
      news := prev.news.take 15 }

/-- Song quality computed by `saveToVault` (`App.tsx`, the full variant):
`base = avg (songwriting, production, vocals)`, `+15` with a ghostwriter,
`+ min 20 (artistFame / 500000)` with a featured artist, then
`floor (base*0.7 + performanceBonus*0.3 + Math.random()*5)` capped by
`Math.min 100`.  `featFame` is the catalog fame of the chosen featured
artist (`REAL_ARTISTS_DATA` lives in `constants.ts`, outside `src`), `none`
when no feature is engaged; `scores` are the mini-game tap scores and
`rand` the `Math.random()` draw. -/
def songQualityAtMastering (skills : Skills) (useGhostwriter : Bool)
    (featFame : Option ℤ) (scores : List ℚ) (rand : ℚ) : ℤ :=
  let performanceBonus : ℚ := scores.sum / (scores.length : ℚ)
  let base0 : ℚ := ((skills.songwriting : ℚ) + (skills.production : ℚ) +
    (skills.vocals : ℚ)) / 3
  let base1 : ℚ := if useGhostwriter then base0 + 15 else base0
  let base2 : ℚ :=
    match featFame with
    | some f => base1 + min 20 ((f : ℚ) / 500000)
    | none => base1
  let quality : ℤ := ⌊base2 * (7 / 10) + performanceBonus * (3 / 10) + rand * 5⌋
  min 100 quality

/-- Source `saveToVault` as a state transition: the freshly mastered song is
prepended to the unreleased vault and a session headline to the news. -/
def saveToVault (newSong : Song) (s : GameState) : GameState :=
  { s with
    unreleasedSongs := newSong :: s.unreleasedSongs
    news := (("Session wrapped: " ++ newSong.title) :: s.news).take 15 }

/-- Source `totalSessionCost` from `App.tsx`: studio rent, plus the ghostwriter fee
when engaged, plus the featured artist's catalog cost when one is chosen and
found. -/
def totalSessionCost (rent ghostwriterFee : ℚ) (useGhostwriter : Bool)
    (featuredCost : Option ℚ) : ℚ :=
  rent + (if useGhostwriter then ghostwriterFee else 0) + featuredCost.elim 0 id

/-- Source `startRecording` from `App.tsx`: with `money < totalSessionCost` the
handler notifies and returns with the state untouched; otherwise it debits
the session cost. -/
def startRecording (cost : ℚ) (s : GameState) : GameState :=
  if s.player.money < cost then s
  else { s with player := { s.player with money := s.player.money - cost } }

/-- The distribution fee of `distributeSong`: 15000 for YouTube (music
video), 250 otherwise. -/
def distributionCost (platform : SocialPlatform) : ℚ :=
  if platform = SocialPlatform.youtube then 15000 else 250

/-- Adds `n` to the follower count of one platform
(`followers[platform] += n`). -/
def Followers.add (f : Followers) (platform : SocialPlatform) (n : ℤ) : Followers :=
  match platform with
  | .instagram => { f with instagram := f.instagram + n }
  | .tiktok => { f with tiktok := f.tiktok + n }
  | .youtube => { f with youtube := f.youtube + n }
  | .spotify => { f with spotify := f.spotify + n }
  | .appleMusic => { f with appleMusic := f.appleMusic + n }

/-- Source `distributeSong` from `App.tsx` (full variant).  `fanGain` is the
Oracle's `calculateSongImpact` estimate and `industryNews` the generated
headline.  With `money < cost` the handler notifies and returns with the
state untouched. -/
def distributeSong (song : Song) (platform : SocialPlatform) (fanGain : ℤ)
    (industryNews : String) (s : GameState) : GameState :=
  let cost := distributionCost platform
  if s.player.money < cost then s
  else
    let updatedSong :=
      { song with
        releaseDate := s.currentMonth
        isMusicVideo := platform = SocialPlatform.youtube }
    let releasePost : SocialPost :=
      { platform := platform
        content := "My new release: " ++ song.title
        postType :=
          if platform = SocialPlatform.youtube then "Music Video" else "Audio Release"
        likes := ⌊(fanGain : ℚ) * (25 / 10)⌋
        impactFans := fanGain
        impactFame := song.quality * 100 }
    { s with
      player :=
        { s.player with
          money := s.player.money - cost
          fans := s.player.fans +
            (if platform = SocialPlatform.youtube then fanGain * 2 else fanGain)
          fame := s.player.fame +
            (if platform = SocialPlatform.youtube then song.quality * 2000
             else song.quality * 1000)
          followers := s.player.followers.add platform ⌊(fanGain : ℚ) * (2 / 10)⌋ }
      songs := updatedSong :: s.songs
      unreleasedSongs := s.unreleasedSongs.filter (fun t => t.id ≠ song.id)
      socialPosts := releasePost :: s.socialPosts
      news := (industryNews :: s.news).take 15 }

/-- Source `produceMusicVideo` from `App.tsx`: fixed cost 15000, rejected without
change when unaffordable; otherwise fan gain `floor (fans*0.1) + 20000`,
fame gain `quality * 2000`, YouTube followers `+ floor (fanGain*0.4)`, the
released song's video flag set. -/
def produceMusicVideo (song : Song) (s : GameState) : GameState :=
  let cost : ℚ := 15000
  if s.player.money < cost then s
  else
    let fanGain : ℤ := ⌊(s.player.fans : ℚ) * (1 / 10)⌋ + 20000
    let fameGain : ℤ := song.quality * 2000
    let releasePost : SocialPost :=
      { platform := SocialPlatform.youtube
        content := "The official music video for " ++ song.title ++ " is out now!"
        postType := "Music Video"
        likes := ⌊(fanGain : ℚ) * 3⌋
        impactFans := fanGain
        impactFame := fameGain }
    { s with
      player :=
        { s.player with
          money := s.player.money - cost
          fans := s.player.fans + fanGain
          fame := s.player.fame + fameGain
          followers :=
            s.player.followers.add SocialPlatform.youtube ⌊(fanGain : ℚ) * (4 / 10)⌋ }
      songs := s.songs.map (fun t =>
        if t.id = song.id then { t with isMusicVideo := true } else t)
      socialPosts := releasePost :: s.socialPosts
      news := (("Visuals for " ++ song.title) :: s.news).take 15 }

/-- Source `handlePostSocial` from `App.tsx`.  `includes` models
`String.prototype.includes` (substring test); `content` is the draft text. -/
def handlePostSocial (includes : String → String → Bool) (content : String)
    (postType : String) (platform : SocialPlatform) (s : GameState) : GameState :=
  let trendMatches := (s.trendingTopics.filter (fun t => includes content t)).length
  let trendMultiplier : ℚ :=
    if trendMatches > 0 then 15 / 10 + (trendMatches : ℚ) * (2 / 10) else 1
  let baseAudience : ℚ := (s.player.fans : ℚ) * (1 / 100) + 10
  let fanGain : ℤ :=
    match platform with
    | .instagram => ⌊baseAudience * (5 / 10) * trendMultiplier⌋
    | .tiktok => ⌊baseAudience * 2 * trendMultiplier⌋
    | .youtube => ⌊baseAudience * (15 / 10) * trendMultiplier⌋
    | _ => ⌊baseAudience * (2 / 10) * trendMultiplier⌋
  let fameGain : ℤ :=
    match platform with
    | .instagram => fanGain * 2
    | .tiktok => fanGain
    | .youtube => fanGain * 4
    | _ => fanGain
  let newPost : SocialPost :=
    { platform := platform, content := content, postType := postType
      likes := ⌊(fanGain : ℚ) * 2⌋, impactFans := fanGain, impactFame := fameGain }
  { s with
    socialPosts := newPost :: s.socialPosts
    player :=
      { s.player with
        fans := s.player.fans + fanGain
        fame := s.player.fame + fameGain
        followers := s.player.followers.add platform fanGain } }

/-- Source `schedulePostForSong` from `App.tsx`: hype post credited to Instagram,
or to YouTube when targeting YouTube. -/
def schedulePostForSong (song : Song) (platform : SocialPlatform)
    (s : GameState) : GameState :=
  let targetPlatform :=
    if platform = SocialPlatform.youtube then SocialPlatform.youtube
    else SocialPlatform.instagram
  let baseAudience : ℚ := (s.player.fans : ℚ) * (2 / 100) + 50
  let fanGain : ℤ := ⌊baseAudience⌋
  let fameGain : ℤ := fanGain * 3
  let newPost : SocialPost :=
    { platform := targetPlatform, content := "Coming soon: " ++ song.title
      postType := "Teaser", likes := fanGain * 5
      impactFans := fanGain, impactFame := fameGain }
  { s with
    socialPosts := newPost :: s.socialPosts
    player :=
      { s.player with
        fans := s.player.fans + fanGain
        fame := s.player.fame + fameGain
        followers := s.player.followers.add targetPlatform ⌊(fanGain : ℚ) * (5 / 10)⌋ } }

/-- Source `handleAcceptDeal` from `App.tsx` (full variant): credits the payout,
debits charisma floored at 0, removes every active offer carrying the
accepted deal's id, and appends the sponsored post. -/
def handleAcceptDeal (deal : SponsoredOffer) (platform : SocialPlatform)
    (s : GameState) : GameState :=
  let fanGain : ℤ := ⌊(s.player.fans : ℚ) * (2 / 100)⌋
  let newPost : SocialPost :=
    { platform := platform
      content := "I am so excited to partner with " ++ deal.brand
      postType := "Sponsored"
      likes := ⌊(fanGain : ℚ) * (5 / 10)⌋
      impactFans := fanGain
      impactFame := fanGain * 2 }
  { s with
    player :=
      { s.player with
        money := s.player.money + deal.payout
        skills :=
          { s.player.skills with
            charisma := max 0 (s.player.skills.charisma - deal.charismaPenalty) } }
    socialPosts := newPost :: s.socialPosts
    activeOffers := s.activeOffers.filter (fun o => o.id ≠ deal.id) }

/-- Modelled from the spec: the `LABELS` catalog lives in `constants.ts`,
which is not under `src`; per the spec the self-released default label
(`indie_self`, the initial `labelId`) keeps 100% of the revenue. -/
def indieLabel : Label :=
  { id := "indie_self", name := "Independent", prestige := 1,
    fameRequirement := 0, signingBonus := 0, revenueSplit := 100 }

/-- Modelled from the spec: the visible part of the label catalog. -/
def LABELS : List Label := [indieLabel]

/-- The fresh-career `GameState` built by `handleStartGame`. -/
def initialState : GameState :=
  { player :=
      { stageName := "Nova"
        fans := 100
        fame := 0
        money := 5000
        followers :=
          { instagram := 50, tiktok := 75, youtube := 20, spotify := 10,
            appleMusic := 5 }
        skills := { songwriting := 20, vocals := 30, production := 10, charisma := 40 }
        labelId := "indie_self" }
    currentMonth := 0
    currentWeek := 0
    songs := []
    unreleasedSongs := []
    awards := []
    news := ["Fresh start. The path to Gold begins today."]
    socialPosts := []
    trendingTopics := ["#MusicVibes", "#Stardom", "#NewArtist"]
    activeOffers := []
    history := [{ month := 0, fans := 100 }] }

/-- One committed `GameState` mutation of the game loop.  `handleEventChoice`
and `handleFanResponse` merge an event- or oracle-chosen update into the
`player` field and touch nothing else, so they are covered by the
`playerOnly` constructor with an arbitrary replacement player. -/
inductive Step : GameState → GameState → Prop where
  | advance (labels : List Label) (inp : AdvanceInputs) (s : GameState) :
      Step s (advanceTime labels inp s)
  | acceptDeal (deal : SponsoredOffer) (platform : SocialPlatform) (s : GameState) :
      Step s (handleAcceptDeal deal platform s)
  | distribute (song : Song) (platform : SocialPlatform) (fanGain : ℤ)
      (industryNews : String) (s : GameState) :
      Step s (distributeSong song platform fanGain industryNews s)
  | produceMV (song : Song) (s : GameState) :
      Step s (produceMusicVideo song s)
  | record (cost : ℚ) (s : GameState) :
      Step s (startRecording cost s)
  | vault (newSong : Song) (s : GameState) :
      Step s (saveToVault newSong s)
  | postSocial (includes : String → String → Bool) (content postType : String)
      (platform : SocialPlatform) (s : GameState) :
      Step s (handlePostSocial includes content postType platform s)
  | schedulePost (song : Song) (platform : SocialPlatform) (s : GameState) :
      Step s (schedulePostForSong song platform s)
  | playerOnly (p : Player) (s : GameState) :
      Step s { s with player := p }

/-- States reachable from a fresh career through committed mutations. -/
inductive Reachable : GameState → Prop where
  | init : Reachable initialState
  | step {s t : GameState} : Reachable s → Step s t → Reachable t

/-- Iterated time advancement: applies the listed inputs in order. -/
def runAdvances (labels : List Label) (start : GameState) :
    List AdvanceInputs → GameState
  | [] => start
  | i :: rest => runAdvances labels (advanceTime labels i start) rest

/-- Total accumulated streams over the released catalog. -/
def streamsTotal (s : GameState) : ℤ :=
  (s.songs.map Song.streams).sum

/-! ### Concrete sample values used by witnesses and counterexamples -/

def sampleOffer : SponsoredOffer :=
  { id := "fallback-offer", brand := "GlowWater", payout := 5000,
    requirement := "Post a photo", charismaPenalty := 3 }

/-- A second oracle-fallback offer: the fallback id is the fixed string
`"fallback-offer"`, so two of them can be active at once. -/
def sampleOfferB : SponsoredOffer :=
  { id := "fallback-offer", brand := "FizzCola", payout := 7000,
    requirement := "Post a video", charismaPenalty := 5 }

def sampleInputs : AdvanceInputs :=
  { jitter := fun _ => 1 / 2, newTrending := ["#Fresh"], offerRoll := 1,
    offer := sampleOffer }

def sampleSong : Song :=
  { id := 7, title := "Gold", quality := 90, releaseDate := 0, streams := 0,
    revenue := 0, isMusicVideo := false, isMastered := true }

def brokeState : GameState :=
  { initialState with player := { initialState.player with money := 0 } }

def dupOffersState : GameState :=
  { initialState with activeOffers := [sampleOffer, sampleOfferB] }

def oneOfferState : GameState :=
  { initialState with activeOffers := [sampleOffer] }

def richState : GameState :=
  { initialState with player := { initialState.player with money := 100000 } }

/-! ### Helper lemmas -/

theorem length_filter_ne_add_countP (key : String) (l : List SponsoredOffer) :
    (l.filter (fun o => o.id ≠ key)).length +
      l.countP (fun o => o.id = key) = l.length := by
  induction l with
  | nil => rfl
  | cons a t ih =>
      simp only [ne_eq, decide_not] at ih
      by_cases h : a.id = key <;>
        simp [List.filter_cons, List.countP_cons, h] <;>
        omega

/-! ### Claim theorems -/

/-- Claim C5: The stream-rate function is monotonically non-decreasing for all
non-negative fan counts; below 1,000,000 fans it returns exactly 0.5, and at
or above 1,000,000 fans it returns `0.5 + (fans - 1000000) * 1e-7`. -/
theorem streamRate_spec :
    (∀ a b : ℤ, 0 ≤ a → a ≤ b → getStreamRate a ≤ getStreamRate b) ∧
    (∀ f : ℤ, f < 1000000 → getStreamRate f = 1 / 2) ∧
    (∀ f : ℤ, 1000000 ≤ f →
      getStreamRate f = 1 / 2 + ((f : ℚ) - 1000000) * (1 / 10000000)) := by
  refine ⟨?_, ?_, ?_⟩
  · intro a b _ hab
    by_cases ha : a < 1000000
    · by_cases hb : b < 1000000
      · simp [getStreamRate, ha, hb]
      · have hb' : (1000000 : ℚ) ≤ (b : ℚ) := by exact_mod_cast Int.not_lt.mp hb
        simp only [getStreamRate, if_pos ha, if_neg hb]
        nlinarith
    · have hb : ¬ b < 1000000 := by omega
      have hab' : (a : ℚ) ≤ (b : ℚ) := by exact_mod_cast hab
      simp only [getStreamRate, if_neg ha, if_neg hb]
      nlinarith
  · intro f hf
    simp only [getStreamRate, if_pos hf]
    norm_num
  · intro f hf
    have hf' : ¬ f < 1000000 := by omega
    simp only [getStreamRate, if_neg hf']
    norm_num

/-- Witness for C5 at concrete fan counts. -/
theorem streamRate_spec_witness :
    getStreamRate 0 ≤ getStreamRate 5 ∧
    getStreamRate 999999 = 1 / 2 ∧
    getStreamRate 2000000 = 1 / 2 + ((2000000 : ℤ) - 1000000 : ℚ) * (1 / 10000000) :=
  ⟨streamRate_spec.1 0 5 (by norm_num) (by norm_num),
   streamRate_spec.2.1 999999 (by norm_num),
   by
    have h := streamRate_spec.2.2 2000000 (by norm_num)
    simpa using h⟩

/-- Claim C10: On a non-rollover weekly advancement the Instagram follower
count becomes `floor (Instagram * 1.01)`, the TikTok count becomes
`floor (TikTok * 1.02)`, and the YouTube, Spotify and AppleMusic counts are
unchanged. -/
theorem weekly_followers_update (labels : List Label) (inp : AdvanceInputs)
    (prev : GameState) (h : prev.currentWeek + 1 ≤ 4) :
    (advanceTime labels inp prev).player.followers =
      { instagram := ⌊(prev.player.followers.instagram : ℚ) * (101 / 100)⌋
        tiktok := ⌊(prev.player.followers.tiktok : ℚ) * (102 / 100)⌋
        youtube := prev.player.followers.youtube
        spotify := prev.player.followers.spotify
        appleMusic := prev.player.followers.appleMusic } := by
  have h4 : ¬ prev.currentWeek + 1 > 4 := by omega
  simp [advanceTime, h4]

/-- Witness for C10 on the fresh career state. -/
theorem weekly_followers_update_witness :
    initialState.currentWeek + 1 ≤ 4 ∧
    (advanceTime LABELS sampleInputs initialState).player.followers =
      { instagram := ⌊(initialState.player.followers.instagram : ℚ) * (101 / 100)⌋
        tiktok := ⌊(initialState.player.followers.tiktok : ℚ) * (102 / 100)⌋
        youtube := initialState.player.followers.youtube
        spotify := initialState.player.followers.spotify
        appleMusic := initialState.player.followers.appleMusic } :=
  ⟨by decide,
   weekly_followers_update LABELS sampleInputs initialState (by decide)⟩

/-- Claim C8: Each money-costed handler (start recording session, distribute
song, produce music video) returns the state unchanged when the player
cannot afford the computed cost, and otherwise commits a state whose money
is debited by exactly that cost. -/
theorem costed_handlers_atomic (s : GameState) (rent fee : ℚ) (gw : Bool)
    (featCost : Option ℚ) (song : Song) (platform : SocialPlatform)
    (fanGain : ℤ) (industryNews : String) :
    (s.player.money < totalSessionCost rent fee gw featCost →
      startRecording (totalSessionCost rent fee gw featCost) s = s) ∧
    (¬ s.player.money < totalSessionCost rent fee gw featCost →
      (startRecording (totalSessionCost rent fee gw featCost) s).player.money =
        s.player.money - totalSessionCost rent fee gw featCost) ∧
    (s.player.money < distributionCost platform →
      distributeSong song platform fanGain industryNews s = s) ∧
    (¬ s.player.money < distributionCost platform →
      (distributeSong song platform fanGain industryNews s).player.money =
        s.player.money - distributionCost platform) ∧
    (s.player.money < 15000 → produceMusicVideo song s = s) ∧
    (¬ s.player.money < 15000 →
      (produceMusicVideo song s).player.money = s.player.money - 15000) := by
  refine ⟨?_, ?_, ?_, ?_, ?_, ?_⟩ <;> intro h <;>
    simp [startRecording, distributeSong, produceMusicVideo, h]

/-- Witness for C8: rejection on a broke player, commitment on the
fresh-career player. -/
theorem costed_handlers_atomic_witness :
    (startRecording (totalSessionCost 500 2500 false none) brokeState = brokeState) ∧
    (distributeSong sampleSong SocialPlatform.spotify 10 "news" initialState).player.money =
      initialState.player.money - distributionCost SocialPlatform.spotify :=
  ⟨(costed_handlers_atomic brokeState 500 2500 false none sampleSong
      SocialPlatform.spotify 10 "news").1 (by norm_num [totalSessionCost, brokeState, initialState]),
   (costed_handlers_atomic initialState 500 2500 false none sampleSong
      SocialPlatform.spotify 10 "news").2.2.2.1
      (by decide)⟩

/-- Claim C7 counterexample: Accepting an offer that is present in the active
list can shrink the list by 2, not 1: the handler filters by id, and the
oracle fallback id `"fallback-offer"` can occur twice. -/
theorem acceptDeal_size_cex :
    sampleOffer ∈ dupOffersState.activeOffers ∧
    (handleAcceptDeal sampleOffer SocialPlatform.instagram
        dupOffersState).activeOffers.length ≠
      dupOffersState.activeOffers.length - 1 := by decide

/-- Claim C7 amended: Accepting an offer credits exactly the payout, floors
charisma at `max 0 (charisma - penalty)`, and removes every active offer
carrying the accepted offer's id — so the list shrinks by exactly 1 when
that id occurs exactly once. -/
theorem acceptDeal_effects (deal : SponsoredOffer) (platform : SocialPlatform)
    (s : GameState) :
    (handleAcceptDeal deal platform s).player.money =
      s.player.money + deal.payout ∧
    (handleAcceptDeal deal platform s).player.skills.charisma =
      max 0 (s.player.skills.charisma - deal.charismaPenalty) ∧
    (handleAcceptDeal deal platform s).activeOffers =
      s.activeOffers.filter (fun o => o.id ≠ deal.id) ∧
    (s.activeOffers.countP (fun o => o.id = deal.id) = 1 →
      (handleAcceptDeal deal platform s).activeOffers.length + 1 =
        s.activeOffers.length) := by
  refine ⟨rfl, rfl, rfl, fun hcount => ?_⟩
  have h := length_filter_ne_add_countP deal.id s.activeOffers
  rw [hcount] at h
  simpa [handleAcceptDeal] using h

/-- Witness for C7 (amended) on a one-offer list. -/
theorem acceptDeal_effects_witness :
    (handleAcceptDeal sampleOffer SocialPlatform.instagram
        oneOfferState).player.money =
      oneOfferState.player.money + sampleOffer.payout ∧
    (handleAcceptDeal sampleOffer SocialPlatform.instagram
        oneOfferState).player.skills.charisma =
      max 0 (oneOfferState.player.skills.charisma - sampleOffer.charismaPenalty) ∧
    (handleAcceptDeal sampleOffer SocialPlatform.instagram
        oneOfferState).activeOffers.length + 1 =
      oneOfferState.activeOffers.length :=
  ⟨(acceptDeal_effects sampleOffer SocialPlatform.instagram oneOfferState).1,
   (acceptDeal_effects sampleOffer SocialPlatform.instagram oneOfferState).2.1,
   (acceptDeal_effects sampleOffer SocialPlatform.instagram oneOfferState).2.2.2
     (by decide)⟩

/-- Claim C9 counterexample: Distributing to YouTube does not quadruple the
fame gain relative to a baseline (Spotify) distribution of the same song:
at quality 90 the gains are 180000 versus 90000, a factor of 2. -/
theorem distribute_fame_quadruple_cex :
    (distributeSong sampleSong SocialPlatform.youtube 100 "news"
        richState).player.fame - richState.player.fame ≠
      4 * ((distributeSong sampleSong SocialPlatform.spotify 100 "news"
        richState).player.fame - richState.player.fame) := by decide

/-- Claim C9 amended: Relative to a baseline non-YouTube distribution of
the same song, YouTube doubles the fan gain and doubles (not quadruples)
the fame gain; the non-oracle fame gain is `quality * 1000` off YouTube and
`quality * 2000` on YouTube. -/
theorem distribute_platform_scaling (s : GameState) (song : Song)
    (fanGain : ℤ) (industryNews : String) (p : SocialPlatform)
    (hp : p ≠ SocialPlatform.youtube) (hm : (15000 : ℚ) ≤ s.player.money) :
    (distributeSong song SocialPlatform.youtube fanGain industryNews s).player.fans
        - s.player.fans =
      2 * ((distributeSong song p fanGain industryNews s).player.fans
        - s.player.fans) ∧
    (distributeSong song SocialPlatform.youtube fanGain industryNews s).player.fame
        - s.player.fame =
      2 * ((distributeSong song p fanGain industryNews s).player.fame
        - s.player.fame) ∧
    (distributeSong song p fanGain industryNews s).player.fame - s.player.fame =
      song.quality * 1000 ∧
    (distributeSong song SocialPlatform.youtube fanGain industryNews s).player.fame
        - s.player.fame =
      song.quality * 2000 := by
  have hyt : ¬ s.player.money < distributionCost SocialPlatform.youtube := by
    unfold distributionCost
    rw [if_pos rfl]
    exact not_lt.mpr hm
  have hop : ¬ s.player.money < distributionCost p := by
    unfold distributionCost
    rw [if_neg hp]
    exact not_lt.mpr (le_trans (by norm_num) hm)
  refine ⟨?_, ?_, ?_, ?_⟩ <;>
    simp [distributeSong, hyt, hop, hp] <;> ring

/-- Witness for C9 (amended) on a funded state. -/
theorem distribute_platform_scaling_witness :
    ((15000 : ℚ) ≤ richState.player.money) ∧
    ((distributeSong sampleSong SocialPlatform.youtube 100 "news"
        richState).player.fame - richState.player.fame =
      2 * ((distributeSong sampleSong SocialPlatform.spotify 100 "news"
        richState).player.fame - richState.player.fame)) :=
  ⟨by decide,
   (distribute_platform_scaling richState sampleSong 100 "news"
      SocialPlatform.spotify (by decide) (by decide)).2.1⟩

/-- Claim C4 counterexample: Mastering has no lower quality clamp: with a
songwriting skill of -1000 (skills are not hard-clamped), zero tap scores
and a zero random draw, the resulting quality is negative. -/
theorem mastering_quality_cex :
    songQualityAtMastering
      { songwriting := -1000, vocals := 0, production := 0, charisma := 0 }
      false none [0, 0, 0, 0, 0] 0 < 0 := by
  norm_num [songQualityAtMastering]

/-- Claim C4 amended: Mastered quality never exceeds 100 regardless of
magnitudes, and lies in [0, 100] whenever the skills, the featured artist's
fame, the tap scores and the random draw are all non-negative (the code
clamps only the upper bound). -/
theorem mastering_quality_clamped (skills : Skills) (gw : Bool)
    (featFame : Option ℤ) (scores : List ℚ) (rand : ℚ) :
    songQualityAtMastering skills gw featFame scores rand ≤ 100 ∧
    (0 ≤ skills.songwriting → 0 ≤ skills.production → 0 ≤ skills.vocals →
      (∀ x ∈ scores, 0 ≤ x) → (∀ f, featFame = some f → 0 ≤ f) → 0 ≤ rand →
      0 ≤ songQualityAtMastering skills gw featFame scores rand) := by
  constructor
  · exact min_le_left _ _
  · intro hsw hpr hvo hsc hff hr
    have hperf : (0 : ℚ) ≤ scores.sum / (scores.length : ℚ) := by
      apply div_nonneg (List.sum_nonneg hsc)
      positivity
    have hbase0 : (0 : ℚ) ≤ ((skills.songwriting : ℚ) + (skills.production : ℚ) +
        (skills.vocals : ℚ)) / 3 := by
      have h1 : (0 : ℚ) ≤ (skills.songwriting : ℚ) := by exact_mod_cast hsw
      have h2 : (0 : ℚ) ≤ (skills.production : ℚ) := by exact_mod_cast hpr
      have h3 : (0 : ℚ) ≤ (skills.vocals : ℚ) := by exact_mod_cast hvo
      linarith
    have hbase1 : (0 : ℚ) ≤ (if gw then (((skills.songwriting : ℚ) +
        (skills.production : ℚ) + (skills.vocals : ℚ)) / 3) + 15
        else ((skills.songwriting : ℚ) + (skills.production : ℚ) +
          (skills.vocals : ℚ)) / 3) := by
      split <;> linarith
    unfold songQualityAtMastering
    rcases featFame with _ | f
    · simp only []
      refine le_min (by norm_num) (Int.le_floor.mpr ?_)
      push_cast
      nlinarith
    · have hf : (0 : ℚ) ≤ (f : ℚ) := by exact_mod_cast hff f rfl
      have hmin : (0 : ℚ) ≤ min 20 ((f : ℚ) / 500000) := by
        refine le_min (by norm_num) (by positivity)
      simp only []
      refine le_min (by norm_num) (Int.le_floor.mpr ?_)
      push_cast
      nlinarith

/-- Witness for C4 (amended) on the fresh-career skills with every bonus
engaged. -/
theorem mastering_quality_clamped_witness :
    songQualityAtMastering
        { songwriting := 20, vocals := 30, production := 10, charisma := 40 }
        true (some 1000000) [90, 80, 100, 70, 60] (1 / 2) ≤ 100 ∧
    0 ≤ songQualityAtMastering
        { songwriting := 20, vocals := 30, production := 10, charisma := 40 }
        true (some 1000000) [90, 80, 100, 70, 60] (1 / 2) :=
  ⟨(mastering_quality_clamped
      { songwriting := 20, vocals := 30, production := 10, charisma := 40 }
      true (some 1000000) [90, 80, 100, 70, 60] (1 / 2)).1,
   (mastering_quality_clamped
      { songwriting := 20, vocals := 30, production := 10, charisma := 40 }
      true (some 1000000) [90, 80, 100, 70, 60] (1 / 2)).2
     (by decide) (by decide) (by decide) (by decide)
     (by intro f hf; cases hf; decide) (by norm_num)⟩

/-- Claim C3: Award-season evaluation yields an "Album of the Year" award
exactly when fans exceed 1,000,000, at least 3 songs are released and the
best released quality exceeds 85; a "Best Artist" award exactly when fame
exceeds 5,000,000; and on the January rollover that runs it the player
gains +500,000 fame and +100,000 money per award won, stacking additively
(money additionally receives the settlement royalties of that call). -/
theorem awards_season_spec :
    (∀ state : GameState,
      ((∃ a ∈ runAwardsSeason state, a.category = "Album of the Year") ↔
        (state.player.fans > 1000000 ∧ state.songs.length ≥ 3 ∧
          bestQuality state.songs > 85)) ∧
      ((∃ a ∈ runAwardsSeason state, a.category = "Best Artist") ↔
        state.player.fame > 5000000)) ∧
    (∀ (labels : List Label) (inp : AdvanceInputs) (prev : GameState),
      prev.currentWeek + 1 > 4 → prev.currentMonth % 12 = 11 →
      (advanceTime labels inp prev).player.fame =
        prev.player.fame + ((runAwardsSeason prev).length : ℤ) * 500000 ∧
      (advanceTime labels inp prev).player.money =
        prev.player.money + ((runAwardsSeason prev).length : ℚ) * 100000 +
          ((monthlyActivity
              (weeklyUpdateSongs prev.player (getStreamRate prev.player.fans)
                inp.jitter 0 prev.songs) prev.songs : ℤ) : ℚ) *
            getStreamRate prev.player.fans * labelShare labels prev.player.labelId) := by
  constructor
  · intro state
    constructor
    · unfold runAwardsSeason
      split_ifs with h1 h2 <;> simp_all
    · unfold runAwardsSeason
      split_ifs with h1 h2 <;> simp_all
  · intro labels inp prev hweek hmonth
    simp only [advanceTime]
    rw [if_pos hweek, if_pos hmonth]
    by_cases hw : (runAwardsSeason prev).length > 0
    · rw [if_pos hw, if_pos hw, if_pos hw]
      exact ⟨rfl, rfl⟩
    · rw [if_neg hw, if_neg hw, if_neg hw]
      have h0 : (runAwardsSeason prev).length = 0 := by omega
      rw [h0]
      constructor <;> push_cast <;> ring

def awardSongA : Song :=
  { id := 1, title := "Alpha", quality := 90, releaseDate := 0, streams := 1000,
    revenue := 0, isMusicVideo := false, isMastered := true }

def awardSongB : Song :=
  { id := 2, title := "Beta", quality := 80, releaseDate := 0, streams := 500,
    revenue := 0, isMusicVideo := false, isMastered := true }

def awardSongC : Song :=
  { id := 3, title := "Gamma", quality := 70, releaseDate := 0, streams := 200,
    revenue := 0, isMusicVideo := false, isMastered := true }

/-- A December week-4 state eligible for both award categories. -/
def awardState : GameState :=
  { initialState with
    currentWeek := 4
    currentMonth := 11
    player := { initialState.player with fans := 1500000, fame := 6000000 }
    songs := [awardSongA, awardSongB, awardSongC] }

/-- Witness for C3 on the January rollover of an eligible state. -/
theorem awards_season_spec_witness :
    (advanceTime LABELS sampleInputs awardState).player.fame =
      awardState.player.fame + ((runAwardsSeason awardState).length : ℤ) * 500000 ∧
    (advanceTime LABELS sampleInputs awardState).player.money =
      awardState.player.money + ((runAwardsSeason awardState).length : ℚ) * 100000 +
        ((monthlyActivity
            (weeklyUpdateSongs awardState.player (getStreamRate awardState.player.fans)
              sampleInputs.jitter 0 awardState.songs) awardState.songs : ℤ) : ℚ) *
          getStreamRate awardState.player.fans *
          labelShare LABELS awardState.player.labelId :=
  awards_season_spec.2 LABELS sampleInputs awardState (by decide) (by decide)

/-! Offers-list frame lemmas for the reachability invariant. -/

theorem advanceTime_offers_le (labels : List Label) (inp : AdvanceInputs)
    (s : GameState) (h : s.activeOffers.length ≤ 3) :
    (advanceTime labels inp s).activeOffers.length ≤ 3 := by
  simp only [advanceTime]
  by_cases hw : s.currentWeek + 1 > 4
  · rw [if_pos hw]
    by_cases hr : inp.offerRoll < 6 / 10
    · simp only [if_pos hr]
      simp [List.length_take]
    · simpa [if_neg hr] using h
  · simpa [if_neg hw] using h

theorem distributeSong_offers (song : Song) (platform : SocialPlatform)
    (fanGain : ℤ) (industryNews : String) (s : GameState) :
    (distributeSong song platform fanGain industryNews s).activeOffers =
      s.activeOffers := by
  simp only [distributeSong]
  by_cases h : s.player.money < distributionCost platform
  · rw [if_pos h]
  · rw [if_neg h]

theorem produceMusicVideo_offers (song : Song) (s : GameState) :
    (produceMusicVideo song s).activeOffers = s.activeOffers := by
  simp only [produceMusicVideo]
  by_cases h : s.player.money < (15000 : ℚ)
  · rw [if_pos h]
  · rw [if_neg h]

theorem startRecording_offers (cost : ℚ) (s : GameState) :
    (startRecording cost s).activeOffers = s.activeOffers := by
  simp only [startRecording]
  by_cases h : s.player.money < cost
  · rw [if_pos h]
  · rw [if_neg h]

/-- Claim C6: The active-offers list holds at most 3 offers in every
reachable state, and on a month rollover that prepends a new offer to a
full list of 3, the list becomes the new offer followed by the two newest
previous offers — the oldest entry is evicted. -/
theorem offers_bound_and_eviction :
    (∀ s : GameState, Reachable s → s.activeOffers.length ≤ 3) ∧
    (∀ (labels : List Label) (inp : AdvanceInputs) (prev : GameState)
      (o1 o2 o3 : SponsoredOffer),
      prev.currentWeek + 1 > 4 → inp.offerRoll < 6 / 10 →
      prev.activeOffers = [o1, o2, o3] →
      (advanceTime labels inp prev).activeOffers = [inp.offer, o1, o2]) := by
  constructor
  · have hstep_le : ∀ {s t : GameState}, Step s t →
        s.activeOffers.length ≤ 3 → t.activeOffers.length ≤ 3 := by
      intro s t hstep
      cases hstep with
      | advance labels inp s => exact advanceTime_offers_le labels inp s
      | acceptDeal deal platform s =>
          intro ih
          calc (handleAcceptDeal deal platform s).activeOffers.length
              ≤ s.activeOffers.length := List.length_filter_le _ _
            _ ≤ 3 := ih
      | distribute song platform fanGain industryNews s =>
          rw [distributeSong_offers]; exact id
      | produceMV song s => rw [produceMusicVideo_offers]; exact id
      | record cost s => rw [startRecording_offers]; exact id
      | vault newSong s => exact id
      | postSocial includes content postType platform s => exact id
      | schedulePost song platform s => exact id
      | playerOnly p s => exact id
    intro s hr
    induction hr with
    | init => decide
    | step hr hstep ih => exact hstep_le hstep ih
  · intro labels inp prev o1 o2 o3 hweek hroll heq
    simp only [advanceTime]
    rw [if_pos hweek]
    simp [heq, if_pos hroll]

def offerC : SponsoredOffer :=
  { id := "c-offer", brand := "ChipCrunch", payout := 3000,
    requirement := "Snack post", charismaPenalty := 2 }

def lowRollInputs : AdvanceInputs :=
  { jitter := fun _ => 1 / 2, newTrending := ["#New"], offerRoll := 0,
    offer := sampleOffer }

def fullOffersState : GameState :=
  { initialState with
    currentWeek := 4
    activeOffers := [sampleOffer, sampleOfferB, offerC] }

/-- Witness for C6: the fresh state obeys the bound, and a rollover on a
full list evicts the oldest offer. -/
theorem offers_bound_and_eviction_witness :
    initialState.activeOffers.length ≤ 3 ∧
    (advanceTime LABELS lowRollInputs fullOffersState).activeOffers =
      [lowRollInputs.offer, sampleOffer, sampleOfferB] :=
  ⟨offers_bound_and_eviction.1 initialState Reachable.init,
   offers_bound_and_eviction.2 LABELS lowRollInputs fullOffersState
     sampleOffer sampleOfferB offerC (by decide) (by norm_num [lowRollInputs]) rfl⟩

/-! C1: the settlement's `monthlyActivity` fold equals the sum of the
per-song gains of the settlement call's own week, provided song ids are
distinct. -/

theorem monthlyActivity_eq_map_sum (updated old : List Song) :
    monthlyActivity updated old =
      (updated.map (fun u => u.streams -
        ((old.find? (fun t => t.id = u.id)).elim 0 Song.streams))).sum := by
  unfold monthlyActivity
  suffices h : ∀ (l : List Song) (a : ℤ),
      l.foldl (fun acc song => acc + (song.streams -
        ((old.find? (fun t => t.id = song.id)).elim 0 Song.streams))) a =
      a + (l.map (fun u => u.streams -
        ((old.find? (fun t => t.id = u.id)).elim 0 Song.streams))).sum by
    simpa using h updated 0
  intro l
  induction l with
  | nil => intro a; simp
  | cons x t ih =>
      intro a
      simp only [List.foldl_cons, List.map_cons, List.sum_cons, ih]
      ring

theorem find?_eq_self_of_nodup (old : List Song)
    (h : (old.map Song.id).Nodup) :
    ∀ s ∈ old, old.find? (fun t => t.id = s.id) = some s := by
  induction old with
  | nil => intro s hs; cases hs
  | cons a rest ih =>
      intro s hs
      have hpair : (∀ x ∈ rest, ¬ x.id = a.id) ∧ (rest.map Song.id).Nodup := by
        simpa using h
      rcases List.mem_cons.mp hs with rfl | hs'
      · simp [List.find?_cons]
      · have hne : ¬ a.id = s.id := fun hEq => hpair.1 s hs' hEq.symm
        rw [List.find?_cons_of_neg _ (by simpa using hne)]
        exact ih hpair.2 s hs'

theorem activity_map_eq_sumGains (p : Player) (rate : ℚ) (j : ℕ → ℚ)
    (old : List Song) :
    ∀ (l : List Song) (i : ℕ),
      (∀ s ∈ l, old.find? (fun t => t.id = s.id) = some s) →
      ((weeklyUpdateSongs p rate j i l).map (fun u => u.streams -
        ((old.find? (fun t => t.id = u.id)).elim 0 Song.streams))).sum =
      sumGains p rate j i l := by
  intro l
  induction l with
  | nil => intro i _; rfl
  | cons s rest ih =>
      intro i h
      have hfind : old.find?
          (fun t => t.id = (weeklyUpdatedSong p rate (j i) s).id) = some s :=
        h s (List.mem_cons_self s rest)
      simp only [weeklyUpdateSongs, List.map_cons, List.sum_cons, sumGains]
      rw [hfind, ih (i + 1) (fun u hu => h u (List.mem_cons_of_mem s hu))]
      rfl

theorem monthlyActivity_eq_sumGains (p : Player) (rate : ℚ) (j : ℕ → ℚ)
    (old : List Song) (h : (old.map Song.id).Nodup) :
    monthlyActivity (weeklyUpdateSongs p rate j 0 old) old =
      sumGains p rate j 0 old := by
  rw [monthlyActivity_eq_map_sum]
  exact activity_map_eq_sumGains p rate j old old 0 (find?_eq_self_of_nodup old h)

/-- The released song carried by the C1 scenario. -/
def hitSong : Song :=
  { id := 0, title := "Hit", quality := 100, releaseDate := 0, streams := 0,
    revenue := 0, isMusicVideo := false, isMastered := true }

/-- Fresh career at week 1 of a month with one released song: the next four
advancements are the four weeks of one settlement month. -/
def monthStartState : GameState :=
  { initialState with currentWeek := 1, songs := [hitSong] }

/-- Fresh career at week 4 with one released song: the next advancement is
a settlement. -/
def settleState : GameState :=
  { initialState with currentWeek := 4, songs := [hitSong] }

/-- Claim C1 counterexample: Over a full month (week 1 through the rollover),
the money credited at settlement is NOT `monthlyActivity * rate * share`
with `monthlyActivity` the sum of all four weeks' stream gains: the code
credits only the deltas against the state at the start of the settlement
call, i.e. the final week's gains.  Concretely the month's four weekly
gains total 20 streams but only 5 are paid out. -/
theorem settlement_monthSum_cex :
    (runAdvances LABELS monthStartState
        [sampleInputs, sampleInputs, sampleInputs, sampleInputs]).player.money -
      monthStartState.player.money ≠
    ((streamsTotal (runAdvances LABELS monthStartState
        [sampleInputs, sampleInputs, sampleInputs, sampleInputs]) -
      streamsTotal monthStartState : ℤ) : ℚ) *
      getStreamRate (runAdvances LABELS monthStartState
        [sampleInputs, sampleInputs, sampleInputs]).player.fans *
      labelShare LABELS monthStartState.player.labelId := by
  norm_num [runAdvances, advanceTime, monthStartState, initialState,
    weeklyUpdateSongs, weeklyUpdatedSong, sampleInputs, getStreamRate,
    streamsTotal, labelShare, LABELS, indieLabel, monthlyActivity, hitSong,
    runAwardsSeason]

/-- Claim C1 amended: On a settlement call outside award season, with the
player's label found in the catalog and a non-zero revenue split, the money
credited equals `activity * currentRate * (revenueSplit / 100)` where
`activity` is the sum of the released songs' stream gains of the settlement
call's own week only (the month's three earlier weekly gains are not part
of it); ids must be distinct for the per-id delta lookup to pick each song
once. -/
theorem settlement_credit_weekly (labels : List Label) (inp : AdvanceInputs)
    (prev : GameState) (l : Label)
    (hweek : prev.currentWeek + 1 > 4)
    (hmonth : ¬ prev.currentMonth % 12 = 11)
    (hfind : labels.find? (fun x => x.id = prev.player.labelId) = some l)
    (hsplit : ¬ l.revenueSplit = 0)
    (hids : (prev.songs.map Song.id).Nodup) :
    (advanceTime labels inp prev).player.money =
      prev.player.money +
        ((sumGains prev.player (getStreamRate prev.player.fans) inp.jitter 0
            prev.songs : ℤ) : ℚ) *
          getStreamRate prev.player.fans * (l.revenueSplit / 100) := by
  simp only [advanceTime]
  rw [if_pos hweek, if_neg hmonth]
  simp only [List.length_nil, gt_iff_lt, lt_self_iff_false, if_false]
  rw [monthlyActivity_eq_sumGains prev.player (getStreamRate prev.player.fans)
    inp.jitter prev.songs hids]
  unfold labelShare
  rw [hfind]
  simp [hsplit]

/-- Witness for C1 (amended): one settlement call on a week-4 state with a
single released song. -/
theorem settlement_credit_weekly_witness :
    (advanceTime LABELS sampleInputs settleState).player.money =
      settleState.player.money +
        ((sumGains settleState.player (getStreamRate settleState.player.fans)
            sampleInputs.jitter 0 settleState.songs : ℤ) : ℚ) *
          getStreamRate settleState.player.fans *
          (indieLabel.revenueSplit / 100) :=
  settlement_credit_weekly LABELS sampleInputs settleState indieLabel
    (by decide) (by decide) (by decide) (by norm_num [indieLabel]) (by decide)

/-! C2: the fresh-career week counter starts at 0, so the first rollover
happens on the fifth advancement, not the fourth. -/

/-- Fresh career after one advancement. -/
def freshS1 : GameState :=
  { initialState with
    currentWeek := 1
    player := { initialState.player with
      fans := 101
      followers :=
        { instagram := 50, tiktok := 76, youtube := 20, spotify := 10,
          appleMusic := 5 } } }

/-- Fresh career after two advancements. -/
def freshS2 : GameState :=
  { initialState with
    currentWeek := 2
    player := { initialState.player with
      fans := 102
      followers :=
        { instagram := 50, tiktok := 77, youtube := 20, spotify := 10,
          appleMusic := 5 } } }

/-- Fresh career after three advancements. -/
def freshS3 : GameState :=
  { initialState with
    currentWeek := 3
    player := { initialState.player with
      fans := 103
      followers :=
        { instagram := 50, tiktok := 78, youtube := 20, spotify := 10,
          appleMusic := 5 } } }

/-- Fresh career after four advancements. -/
def freshS4 : GameState :=
  { initialState with
    currentWeek := 4
    player := { initialState.player with
      fans := 104
      followers :=
        { instagram := 50, tiktok := 79, youtube := 20, spotify := 10,
          appleMusic := 5 } } }

theorem advance_fresh1 (labels : List Label) (inp : AdvanceInputs) :
    advanceTime labels inp initialState = freshS1 := by
  norm_num [advanceTime, initialState, freshS1, weeklyUpdateSongs]

theorem advance_fresh2 (labels : List Label) (inp : AdvanceInputs) :
    advanceTime labels inp freshS1 = freshS2 := by
  norm_num [advanceTime, initialState, freshS1, freshS2, weeklyUpdateSongs]

theorem advance_fresh3 (labels : List Label) (inp : AdvanceInputs) :
    advanceTime labels inp freshS2 = freshS3 := by
  norm_num [advanceTime, initialState, freshS2, freshS3, weeklyUpdateSongs]

theorem advance_fresh4 (labels : List Label) (inp : AdvanceInputs) :
    advanceTime labels inp freshS3 = freshS4 := by
  norm_num [advanceTime, initialState, freshS3, freshS4, weeklyUpdateSongs]

/-- Claim C2 counterexample: Advancing a fresh career (week counter 0) four
consecutive times triggers no settlement at all: the week counter only
reaches 4, the month never advances, and the trending-topics list is never
refreshed. -/
theorem four_advances_no_settlement_cex :
    (runAdvances LABELS initialState
      [sampleInputs, sampleInputs, sampleInputs, sampleInputs]).currentWeek = 4 ∧
    (runAdvances LABELS initialState
      [sampleInputs, sampleInputs, sampleInputs, sampleInputs]).currentMonth = 0 ∧
    (runAdvances LABELS initialState
        [sampleInputs, sampleInputs, sampleInputs, sampleInputs]).trendingTopics =
      initialState.trendingTopics := by
  have h : runAdvances LABELS initialState
      [sampleInputs, sampleInputs, sampleInputs, sampleInputs] = freshS4 := by
    simp [runAdvances, advance_fresh1, advance_fresh2, advance_fresh3,
      advance_fresh4]
  rw [h]
  refine ⟨rfl, rfl, rfl⟩

/-- Claim C2 amended: From a fresh career (week counter 0), it takes five
advancements to trigger exactly one settlement: the first four calls only
apply the weekly updates (week counter 1,2,3,4; month unchanged; trending
list untouched; 1% organic fan growth 100→104), and the fifth call rolls
the week from 4 back to 1, advances the month, installs the oracle's fresh
trending list and applies the 5% fan growth. -/
theorem five_advances_single_settlement (labels : List Label)
    (i1 i2 i3 i4 i5 : AdvanceInputs) :
    (runAdvances labels initialState [i1]).currentWeek = 1 ∧
    (runAdvances labels initialState [i1, i2]).currentWeek = 2 ∧
    (runAdvances labels initialState [i1, i2, i3]).currentWeek = 3 ∧
    (runAdvances labels initialState [i1, i2, i3, i4]).currentWeek = 4 ∧
    (runAdvances labels initialState [i1, i2, i3, i4]).currentMonth = 0 ∧
    (runAdvances labels initialState [i1, i2, i3, i4]).trendingTopics =
      initialState.trendingTopics ∧
    (runAdvances labels initialState [i1, i2, i3, i4]).player.fans = 104 ∧
    (runAdvances labels initialState [i1, i2, i3, i4, i5]).currentWeek = 1 ∧
    (runAdvances labels initialState [i1, i2, i3, i4, i5]).currentMonth = 1 ∧
    (runAdvances labels initialState [i1, i2, i3, i4, i5]).trendingTopics =
      i5.newTrending ∧
    (runAdvances labels initialState [i1, i2, i3, i4, i5]).player.fans =
      104 + ⌊(104 : ℚ) * (5 / 100)⌋ := by
  have h1 : runAdvances labels initialState [i1] = freshS1 := by
    simp [runAdvances, advance_fresh1]
  have h2 : runAdvances labels initialState [i1, i2] = freshS2 := by
    simp [runAdvances, advance_fresh1, advance_fresh2]
  have h3 : runAdvances labels initialState [i1, i2, i3] = freshS3 := by
    simp [runAdvances, advance_fresh1, advance_fresh2, advance_fresh3]
  have h4 : runAdvances labels initialState [i1, i2, i3, i4] = freshS4 := by
    simp [runAdvances, advance_fresh1, advance_fresh2, advance_fresh3,
      advance_fresh4]
  have h5 : runAdvances labels initialState [i1, i2, i3, i4, i5] =
      advanceTime labels i5 freshS4 := by
    simp [runAdvances, advance_fresh1, advance_fresh2, advance_fresh3,
      advance_fresh4]
  refine ⟨?_, ?_, ?_, ?_, ?_, ?_, ?_, ?_, ?_, ?_, ?_⟩
  · rw [h1]; rfl
  · rw [h2]; rfl
  · rw [h3]; rfl
  · rw [h4]; rfl
  · rw [h4]; rfl
  · rw [h4]; rfl
  · rw [h4]; rfl
  · rw [h5]
    norm_num [advanceTime, freshS4, initialState, weeklyUpdateSongs, runAwardsSeason]
  · rw [h5]
    norm_num [advanceTime, freshS4, initialState, weeklyUpdateSongs, runAwardsSeason]
  · rw [h5]
    norm_num [advanceTime, freshS4, initialState, weeklyUpdateSongs, runAwardsSeason]
  · rw [h5]
    norm_num [advanceTime, freshS4, initialState, weeklyUpdateSongs, runAwardsSeason]

end Stardom
